import Mathlib

/-!
Verification of the packet layout engine and routing path codec of libtio
(src/include/tio/packet.h), via a shallow embedding of the C code.

Modelling choices:
* The packed header `struct tl_packet_header { uint8_t type; uint8_t
  routing_size; uint16_t payload_size; }` occupies 4 bytes with no padding;
  its fields are modelled as `Nat` (they represent uint8/uint8/uint16 values;
  none of the operations below can overflow those widths because every
  increment/decrement is guarded, so no explicit wraparound is needed).
* Pointers returned by the accessor functions are modelled as byte offsets
  from the start of the packet buffer.
* A whole packet is the header together with the bytes of the buffer after
  the header, modelled as a function from absolute byte offsets to byte
  values (`mem`); payload byte `i` lives at offset `4 + i`, routing byte `j`
  at offset `4 + payload_size + j`, exactly as the pointer arithmetic in the
  C source computes them.
* The in-place mutating functions (`tl_packet_pop_hop`, `tl_packet_push_hop`)
  become state transformers returning the C `int` result paired with the
  updated packet; the pure accessors stay pure functions.
-/

/-- C macro `#define TL_PACKET_MAX_SIZE 512`. -/
def TL_PACKET_MAX_SIZE : Nat := 512

/-- C macro `#define TL_PACKET_MAX_ROUTING_SIZE 8`. -/
def TL_PACKET_MAX_ROUTING_SIZE : Nat := 8

/-- Value of `sizeof(tl_packet_header)`: the struct is `__attribute__((__packed__))`
with fields uint8 + uint8 + uint16, hence 4 bytes. -/
def tl_packet_header_size : Nat := 4

/-- C macro `#define TL_PACKET_MAX_PAYLOAD_SIZE
      (TL_PACKET_MAX_SIZE - sizeof(tl_packet_header) - TL_PACKET_MAX_ROUTING_SIZE)` -/
def TL_PACKET_MAX_PAYLOAD_SIZE : Nat :=
  TL_PACKET_MAX_SIZE - tl_packet_header_size - TL_PACKET_MAX_ROUTING_SIZE

/-- The C `struct tl_packet_header`: `type` and `routing_size` are uint8 values,
`payload_size` a uint16 value. -/
structure tl_packet_header where
  type : Nat
  routing_size : Nat
  payload_size : Nat
deriving DecidableEq

/-- A full packet: the header plus the bytes of the buffer after the header.
`mem i` is the byte stored at offset `i` from the start of the packet
(offsets below `tl_packet_header_size` are never consulted: the header
fields live in `hdr`). -/
structure tl_packet where
  hdr : tl_packet_header
  mem : Nat → Nat

/-- C macro `TL_PTYPE_STREAM0` (128), first data stream type tag. -/
def TL_PTYPE_STREAM0 : Nat := 128

/-- C source: `static inline size_t tl_packet_total_size(const tl_packet_header *pkt)
    { return sizeof(*pkt) + pkt->payload_size + pkt->routing_size; }` -/
def tl_packet_total_size (pkt : tl_packet_header) : Nat :=
  tl_packet_header_size + pkt.payload_size + pkt.routing_size

/-- C source: `static inline uint8_t *tl_packet_payload_data(tl_packet_header *pkt)
    { return ((uint8_t*) pkt) + sizeof(*pkt); }`
(pointer modelled as offset from the packet base). -/
def tl_packet_payload_data (_pkt : tl_packet_header) : Nat :=
  tl_packet_header_size

/-- C source: `static inline uint8_t *tl_packet_routing_data(tl_packet_header *pkt)
    { return ((uint8_t*) pkt) + sizeof(*pkt) + pkt->payload_size; }`
(pointer modelled as offset from the packet base). -/
def tl_packet_routing_data (pkt : tl_packet_header) : Nat :=
  tl_packet_header_size + pkt.payload_size

/-- C source: `static inline int tl_packet_pop_hop(tl_packet_header *pkt)
    { return (pkt->routing_size == 0) ? -1 :
        tl_packet_routing_data(pkt)[--pkt->routing_size]; }`
Returns the C `int` result together with the updated packet. -/
def tl_packet_pop_hop (p : tl_packet) : Int × tl_packet :=
  if p.hdr.routing_size = 0 then (-1, p)
  else ((p.mem (tl_packet_routing_data p.hdr + (p.hdr.routing_size - 1)) : Int),
        { p with hdr := { p.hdr with routing_size := p.hdr.routing_size - 1 } })

/-- C source: `static inline int tl_packet_push_hop(tl_packet_header *pkt, uint8_t hop)
    { if (pkt->routing_size >= TL_PACKET_MAX_ROUTING_SIZE) return -1;
      tl_packet_routing_data(pkt)[pkt->routing_size++] = hop;
      return 0; }`
The `hop` argument is a uint8, hence the `% 256` at the store. -/
def tl_packet_push_hop (p : tl_packet) (hop : Nat) : Int × tl_packet :=
  if TL_PACKET_MAX_ROUTING_SIZE ≤ p.hdr.routing_size then (-1, p)
  else (0,
    { hdr := { p.hdr with routing_size := p.hdr.routing_size + 1 },
      mem := fun i =>
        if i = tl_packet_routing_data p.hdr + p.hdr.routing_size then hop % 256
        else p.mem i })

/-- C source: `static inline int tl_packet_stream_id(const tl_packet_header *pkt)
    { return (pkt->type >= TL_PTYPE_STREAM0) ?
        (pkt->type - TL_PTYPE_STREAM0) : -1; }` -/
def tl_packet_stream_id (pkt : tl_packet_header) : Int :=
  if TL_PTYPE_STREAM0 ≤ pkt.type then (pkt.type : Int) - (TL_PTYPE_STREAM0 : Int)
  else -1

/-- Iterated application of `tl_packet_pop_hop`'s state update. -/
def popIter : Nat → tl_packet → tl_packet
  | 0, p => p
  | n + 1, p => popIter n (tl_packet_pop_hop p).2

/-- Fold `tl_packet_push_hop` over a list of hop bytes, left to right. -/
def pushAll (p : tl_packet) (hops : List Nat) : tl_packet :=
  hops.foldl (fun q b => (tl_packet_push_hop q b).2) p

/-- Returns `true` when every push in the left-to-right sequence reports success
(returns 0). -/
def pushAllOk : tl_packet → List Nat → Bool
  | _, [] => true
  | p, b :: rest =>
      ((tl_packet_push_hop p b).1 == 0) && pushAllOk (tl_packet_push_hop p b).2 rest

/-- A packet whose routing trailer holds exactly the bytes of `hops`,
written left-to-right from the start of the trailer (byte `hops[j]` at
offset `routing_data + j`), with `routing_size = hops.length` and the given
`payload_size`; all other buffer bytes are 0. -/
def installRouting (payloadSize : Nat) (hops : List Nat) : tl_packet :=
  { hdr := { type := 0, routing_size := hops.length, payload_size := payloadSize },
    mem := fun i =>
      if tl_packet_header_size + payloadSize ≤ i then
        hops.getD (i - (tl_packet_header_size + payloadSize)) 0
      else 0 }

/-- A blank packet: all header fields and buffer bytes zero. -/
def examplePacket : tl_packet :=
  { hdr := { type := 0, routing_size := 0, payload_size := 0 }, mem := fun _ => 0 }

/-- Modelled from the spec: split a character list on `'/'` (the analogue of
splitting the path string on slashes; n slashes produce n+1 segments, empty
segments included). -/
def splitSlash : List Char → List (List Char)
  | [] => [[]]
  | c :: cs =>
      match splitSlash cs with
      | [] => if c = '/' then [[], []] else [[c]]
      | seg :: rest =>
          if c = '/' then [] :: seg :: rest else (c :: seg) :: rest

/-- Modelled from the spec: `tl_parse_routing` is declared in
src/include/tio/packet.h but its definition (in a .c file) is not among the
provided sources. Digit characters to value: a segment parses as an unsigned
decimal integer; any non-digit character makes it fail. -/
def parseHopDigits : List Char → Nat → Option Nat
  | [], acc => some acc
  | c :: cs, acc =>
      if c.isDigit then parseHopDigits cs (acc * 10 + (c.toNat - 48)) else none

/-- Modelled from the spec: one path segment must be non-empty, numeric, and
its value must fit in one byte (0..255); otherwise the parse fails. -/
def parseHop (s : List Char) : Option Nat :=
  if s = [] then none
  else match parseHopDigits s 0 with
    | none => none
    | some v => if v ≤ 255 then some v else none

/-- Modelled from the spec: parse every segment, failing if any fails
(no partial output: the whole parse is atomic). -/
def parseHopList : List (List Char) → Option (List Nat)
  | [] => some []
  | s :: rest =>
      match parseHop s, parseHopList rest with
      | some v, some vs => some (v :: vs)
      | _, _ => none

/-- Modelled from the spec: `tl_parse_routing` ("Parse a null terminated
string of the form "/3/1/" into a binary routing encoding"; its definition
is not among the provided sources). Splits on `/`, ignoring a single
optional leading and/or trailing empty segment (leading/trailing slash
optional); each remaining segment must parse as an unsigned integer in
0..255; hops are produced in left-to-right string order; fails on an empty
segment, a non-numeric segment, an out-of-range value, or more than
`TL_PACKET_MAX_ROUTING_SIZE` hops, with no partial output on failure. -/
def tl_parse_routing (routingPath : String) : Option (List Nat) :=
  let segs₀ := splitSlash routingPath.data
  let segs₁ := match segs₀ with
    | [] => []
    | first :: rest => if first = [] then rest else first :: rest
  let segs := match segs₁.getLast? with
    | some s => if s = [] then segs₁.dropLast else segs₁
    | none => segs₁
  match parseHopList segs with
  | none => none
  | some hops => if hops.length ≤ TL_PACKET_MAX_ROUTING_SIZE then some hops else none

/-! ## Helper lemmas -/

/-- Indexing a nonempty list at its last position with `getD` yields
`getLast`. -/
theorem getD_last (l : List Nat) (h : l ≠ []) :
    l.getD (l.length - 1) 0 = l.getLast h := by
  induction l with
  | nil => exact absurd rfl h
  | cons a t ih =>
      cases t with
      | nil => rfl
      | cons b u =>
          rw [List.getLast_cons (List.cons_ne_nil b u)]
          exact ih (List.cons_ne_nil b u)

/-- A successful push reports 0, increments `routing_size`, and keeps the
other header fields. -/
theorem push_hop_success (p : tl_packet) (b : Nat)
    (h : p.hdr.routing_size < TL_PACKET_MAX_ROUTING_SIZE) :
    (tl_packet_push_hop p b).1 = 0 ∧
    (tl_packet_push_hop p b).2.hdr.routing_size = p.hdr.routing_size + 1 ∧
    (tl_packet_push_hop p b).2.hdr.payload_size = p.hdr.payload_size ∧
    (tl_packet_push_hop p b).2.hdr.type = p.hdr.type := by
  unfold tl_packet_push_hop
  rw [if_neg (Nat.not_le.mpr h)]
  exact ⟨rfl, rfl, rfl, rfl⟩

/-- Pushing a list of hops that fits the remaining capacity: every push
succeeds, `routing_size` grows by the list length, and `payload_size` is
unchanged. -/
theorem pushAll_spec (hops : List Nat) (p : tl_packet)
    (h : p.hdr.routing_size + hops.length ≤ TL_PACKET_MAX_ROUTING_SIZE) :
    pushAllOk p hops = true ∧
    (pushAll p hops).hdr.routing_size = p.hdr.routing_size + hops.length ∧
    (pushAll p hops).hdr.payload_size = p.hdr.payload_size := by
  induction hops generalizing p with
  | nil => exact ⟨rfl, rfl, rfl⟩
  | cons b rest ih =>
      have hlen : (b :: rest).length = rest.length + 1 := rfl
      have hlt : p.hdr.routing_size < TL_PACKET_MAX_ROUTING_SIZE := by
        rw [hlen] at h; omega
      obtain ⟨h0, hrs, hps, _⟩ := push_hop_success p b hlt
      have ih' := ih (tl_packet_push_hop p b).2
        (by rw [hrs]; rw [hlen] at h; omega)
      refine ⟨?_, ?_, ?_⟩
      · show (((tl_packet_push_hop p b).1 == 0) &&
          pushAllOk (tl_packet_push_hop p b).2 rest) = true
        rw [h0, ih'.1]
        rfl
      · show (pushAll (tl_packet_push_hop p b).2 rest).hdr.routing_size = _
        rw [ih'.2.1, hrs, hlen]
        omega
      · show (pushAll (tl_packet_push_hop p b).2 rest).hdr.payload_size = _
        rw [ih'.2.2, hps]

/-! ## Claim theorems -/

/-- Claim C1: for every header whose fields are within capacity
(`routing_size <= 8` and `payload_size <= 512 - header_size - 8`),
`tl_packet_total_size` returns header size + payload_size + routing_size,
and this value never exceeds 512. -/
theorem total_size_correct (pkt : tl_packet_header)
    (hr : pkt.routing_size ≤ TL_PACKET_MAX_ROUTING_SIZE)
    (hp : pkt.payload_size ≤ TL_PACKET_MAX_PAYLOAD_SIZE) :
    tl_packet_total_size pkt =
      tl_packet_header_size + pkt.payload_size + pkt.routing_size ∧
    tl_packet_total_size pkt ≤ TL_PACKET_MAX_SIZE := by
  unfold tl_packet_total_size
  unfold TL_PACKET_MAX_PAYLOAD_SIZE TL_PACKET_MAX_SIZE TL_PACKET_MAX_ROUTING_SIZE
      tl_packet_header_size at *
  omega

/-- Witness for C1 at a boundary header (`routing_size = 8`,
`payload_size = 500`). -/
theorem total_size_correct_witness :
    (⟨1, 8, 500⟩ : tl_packet_header).routing_size ≤ TL_PACKET_MAX_ROUTING_SIZE ∧
    (⟨1, 8, 500⟩ : tl_packet_header).payload_size ≤ TL_PACKET_MAX_PAYLOAD_SIZE ∧
    (tl_packet_total_size ⟨1, 8, 500⟩ =
        tl_packet_header_size + 500 + 8 ∧
      tl_packet_total_size ⟨1, 8, 500⟩ ≤ TL_PACKET_MAX_SIZE) :=
  ⟨by decide, by decide,
    total_size_correct ⟨1, 8, 500⟩ (by decide) (by decide)⟩

/-- Claim C3: on a packet with `routing_size = 0`, `tl_packet_pop_hop` returns -1
and leaves the packet unchanged, and the failure is idempotent: any number
of repeated pops leaves the state unchanged and keeps failing with -1. -/
theorem pop_empty_idempotent (p : tl_packet) (h : p.hdr.routing_size = 0) :
    (tl_packet_pop_hop p).1 = -1 ∧
    (tl_packet_pop_hop p).2 = p ∧
    ∀ n, popIter n p = p ∧ tl_packet_pop_hop (popIter n p) = (-1, p) := by
  have hp : tl_packet_pop_hop p = (-1, p) := by
    unfold tl_packet_pop_hop
    rw [if_pos h]
  refine ⟨by rw [hp], by rw [hp], fun n => ?_⟩
  induction n with
  | zero => exact ⟨rfl, hp⟩
  | succ n ih =>
      have hstep : popIter (n + 1) p = popIter n p := by
        show popIter n (tl_packet_pop_hop p).2 = popIter n p
        rw [hp]
      rw [hstep]
      exact ih

/-- Witness for C3 on the all-zero packet. -/
theorem pop_empty_idempotent_witness :
    examplePacket.hdr.routing_size = 0 ∧
    ((tl_packet_pop_hop examplePacket).1 = -1 ∧
     (tl_packet_pop_hop examplePacket).2 = examplePacket ∧
     ∀ n, popIter n examplePacket = examplePacket ∧
       tl_packet_pop_hop (popIter n examplePacket) = (-1, examplePacket)) :=
  ⟨rfl, pop_empty_idempotent examplePacket rfl⟩

/-- Claim C5: `tl_packet_stream_id` returns N on a header with type 128+N for
every N in 0..127, and -1 ("not a stream") on every type in 0..127; in the
embedding it is a pure function of the header, so it mutates nothing. -/
theorem stream_id_spec (pkt : tl_packet_header) :
    (∀ N, N ≤ 127 → pkt.type = TL_PTYPE_STREAM0 + N →
      tl_packet_stream_id pkt = (N : Int)) ∧
    (pkt.type ≤ 127 → tl_packet_stream_id pkt = -1) := by
  unfold tl_packet_stream_id TL_PTYPE_STREAM0
  constructor
  · intro N _ ht
    rw [ht, if_pos (by omega)]
    push_cast
    omega
  · intro h
    rw [if_neg (by omega)]

/-- Witness for C5: stream 5 has type 133; type 6 (user) is not a stream. -/
theorem stream_id_spec_witness :
    tl_packet_stream_id ⟨133, 0, 0⟩ = (5 : Int) ∧
    tl_packet_stream_id ⟨6, 0, 0⟩ = -1 :=
  ⟨(stream_id_spec ⟨133, 0, 0⟩).1 5 (by decide) (by decide),
   (stream_id_spec ⟨6, 0, 0⟩).2 (by decide)⟩

/-- Claim C2: on a packet with `routing_size < 8`, pushing any hop byte `b`
succeeds, an immediately following pop succeeds and returns the same byte
`b`, and `routing_size` ends up at its value before the push. -/
theorem push_pop_roundtrip (p : tl_packet) (b : Nat) (hb : b < 256)
    (hr : p.hdr.routing_size < TL_PACKET_MAX_ROUTING_SIZE) :
    (tl_packet_push_hop p b).1 = 0 ∧
    (tl_packet_pop_hop (tl_packet_push_hop p b).2).1 = (b : Int) ∧
    (tl_packet_pop_hop (tl_packet_push_hop p b).2).2.hdr.routing_size =
      p.hdr.routing_size := by
  unfold tl_packet_push_hop
  rw [if_neg (Nat.not_le.mpr hr)]
  refine ⟨rfl, ?_, ?_⟩
  · unfold tl_packet_pop_hop
    rw [if_neg (Nat.succ_ne_zero _)]
    simp [tl_packet_routing_data, Nat.mod_eq_of_lt hb]
  · unfold tl_packet_pop_hop
    rw [if_neg (Nat.succ_ne_zero _)]
    simp

/-- Witness for C2: pushing byte 7 onto the blank packet and popping it
returns 7 and restores `routing_size`. -/
theorem push_pop_roundtrip_witness :
    (tl_packet_push_hop examplePacket 7).1 = 0 ∧
    (tl_packet_pop_hop (tl_packet_push_hop examplePacket 7).2).1 = (7 : Int) ∧
    (tl_packet_pop_hop (tl_packet_push_hop examplePacket 7).2).2.hdr.routing_size =
      examplePacket.hdr.routing_size :=
  push_pop_roundtrip examplePacket 7 (by decide) (by decide)

/-- Claim C4: from `routing_size = 0`, a sequence of 8 pushes all succeed, and
a 9th push returns -1 and leaves the whole packet (trailer bytes and
`routing_size` included) unchanged. -/
theorem push_capacity_boundary (p : tl_packet) (hops : List Nat) (b9 : Nat)
    (h0 : p.hdr.routing_size = 0) (hlen : hops.length = 8) :
    pushAllOk p hops = true ∧
    tl_packet_push_hop (pushAll p hops) b9 = (-1, pushAll p hops) := by
  have hs := pushAll_spec hops p (by rw [h0, hlen]; decide)
  refine ⟨hs.1, ?_⟩
  unfold tl_packet_push_hop
  rw [if_pos (by rw [hs.2.1, h0, hlen]; decide)]

/-- Witness for C4: hops 1..8 onto the blank packet, then a failing push of 9. -/
theorem push_capacity_boundary_witness :
    pushAllOk examplePacket [1, 2, 3, 4, 5, 6, 7, 8] = true ∧
    tl_packet_push_hop (pushAll examplePacket [1, 2, 3, 4, 5, 6, 7, 8]) 9 =
      (-1, pushAll examplePacket [1, 2, 3, 4, 5, 6, 7, 8]) :=
  push_capacity_boundary examplePacket [1, 2, 3, 4, 5, 6, 7, 8] 9 rfl rfl

/-- Claim C6: the payload region begins at the fixed offset equal to the
header size, the routing trailer begins at header size + `payload_size`, and
the routing offset shifts whenever `payload_size` changes (it is determined
by, and injective in, the current `payload_size`). -/
theorem offsets_spec (pkt : tl_packet_header) :
    tl_packet_payload_data pkt = tl_packet_header_size ∧
    tl_packet_routing_data pkt = tl_packet_header_size + pkt.payload_size ∧
    ∀ pkt' : tl_packet_header, pkt'.payload_size ≠ pkt.payload_size →
      tl_packet_routing_data pkt' ≠ tl_packet_routing_data pkt := by
  refine ⟨rfl, rfl, fun pkt' hne => ?_⟩
  unfold tl_packet_routing_data
  omega

/-- Witness for C6 at a header with `payload_size = 10` against one with
`payload_size = 20`. -/
theorem offsets_spec_witness :
    tl_packet_payload_data ⟨2, 1, 10⟩ = tl_packet_header_size ∧
    tl_packet_routing_data ⟨2, 1, 10⟩ = tl_packet_header_size + 10 ∧
    tl_packet_routing_data ⟨2, 1, 20⟩ ≠ tl_packet_routing_data ⟨2, 1, 10⟩ :=
  ⟨(offsets_spec ⟨2, 1, 10⟩).1, (offsets_spec ⟨2, 1, 10⟩).2.1,
   (offsets_spec ⟨2, 1, 10⟩).2.2 ⟨2, 1, 20⟩ (by decide)⟩

/-- Claim C7: `tl_packet_pop_hop` leaves `type`, `payload_size` and every
buffer byte (payload included) unchanged — it mutates only `routing_size`;
`tl_packet_push_hop` leaves `type`, `payload_size`, every buffer byte other
than the single trailer byte at `routing_data + routing_size`, and in
particular every payload byte (offsets below `routing_data`), unchanged.
The remaining operations are embedded as pure functions of the packet
(they return a number and no packet), so they mutate nothing. -/
theorem hop_ops_frame (p : tl_packet) (b : Nat) :
    ((tl_packet_pop_hop p).2.hdr.type = p.hdr.type ∧
     (tl_packet_pop_hop p).2.hdr.payload_size = p.hdr.payload_size ∧
     (tl_packet_pop_hop p).2.mem = p.mem) ∧
    ((tl_packet_push_hop p b).2.hdr.type = p.hdr.type ∧
     (tl_packet_push_hop p b).2.hdr.payload_size = p.hdr.payload_size ∧
     (∀ i, i ≠ tl_packet_routing_data p.hdr + p.hdr.routing_size →
       (tl_packet_push_hop p b).2.mem i = p.mem i) ∧
     (∀ i, i < tl_packet_routing_data p.hdr →
       (tl_packet_push_hop p b).2.mem i = p.mem i)) := by
  constructor
  · unfold tl_packet_pop_hop
    by_cases h : p.hdr.routing_size = 0
    · rw [if_pos h]; exact ⟨rfl, rfl, rfl⟩
    · rw [if_neg h]; exact ⟨rfl, rfl, rfl⟩
  · unfold tl_packet_push_hop
    by_cases h : TL_PACKET_MAX_ROUTING_SIZE ≤ p.hdr.routing_size
    · rw [if_pos h]; exact ⟨rfl, rfl, fun i _ => rfl, fun i _ => rfl⟩
    · rw [if_neg h]
      refine ⟨rfl, rfl, fun i hi => ?_, fun i hi => ?_⟩
      · show (if i = tl_packet_routing_data p.hdr + p.hdr.routing_size
            then b % 256 else p.mem i) = p.mem i
        rw [if_neg hi]
      · show (if i = tl_packet_routing_data p.hdr + p.hdr.routing_size
            then b % 256 else p.mem i) = p.mem i
        rw [if_neg (by omega)]

/-- Witness for C7 on the blank packet: pop touches no buffer byte, and a
push of byte 5 leaves offset 100 (away from the write position 4) and
payload offset 3 unchanged. -/
theorem hop_ops_frame_witness :
    (tl_packet_pop_hop examplePacket).2.mem = examplePacket.mem ∧
    (tl_packet_push_hop examplePacket 5).2.mem 100 = examplePacket.mem 100 ∧
    (tl_packet_push_hop examplePacket 5).2.mem 3 = examplePacket.mem 3 :=
  ⟨(hop_ops_frame examplePacket 5).1.2.2,
   (hop_ops_frame examplePacket 5).2.2.2.1 100 (by decide),
   (hop_ops_frame examplePacket 5).2.2.2.2 3 (by decide)⟩

/-- A packet whose header claims a payload larger than
`TL_PACKET_MAX_PAYLOAD_SIZE` (509 > 500), with empty routing. -/
def oversizedPacket : tl_packet :=
  { hdr := { type := 0, routing_size := 0, payload_size := 509 }, mem := fun _ => 0 }

/-- Claim C10: `tl_packet_push_hop` succeeds if and only if
`routing_size < 8`; it performs no total-packet-size check, so it succeeds
for every hop byte even on a header whose `payload_size` exceeds the maximum
payload capacity and whose total size after the push exceeds 512. -/
theorem push_no_size_check (p : tl_packet) (b : Nat) :
    ((tl_packet_push_hop p b).1 = 0 ↔
      p.hdr.routing_size < TL_PACKET_MAX_ROUTING_SIZE) ∧
    (p.hdr.routing_size < TL_PACKET_MAX_ROUTING_SIZE →
      TL_PACKET_MAX_PAYLOAD_SIZE < p.hdr.payload_size →
      TL_PACKET_MAX_SIZE <
        tl_packet_header_size + p.hdr.payload_size + p.hdr.routing_size + 1 →
      (tl_packet_push_hop p b).1 = 0) := by
  constructor
  · unfold tl_packet_push_hop
    by_cases h : TL_PACKET_MAX_ROUTING_SIZE ≤ p.hdr.routing_size
    · rw [if_pos h]
      have hne : ¬ ((-1 : Int) = 0) := by decide
      constructor
      · intro h0; exact absurd h0 hne
      · intro hlt; omega
    · rw [if_neg h]
      exact ⟨fun _ => Nat.lt_of_not_le h, fun _ => rfl⟩
  · intro hlt _ _
    unfold tl_packet_push_hop
    rw [if_neg (Nat.not_le.mpr hlt)]

/-- Witness for C10: a push onto a packet whose header claims payload 509
(over the 500-byte capacity; total after push 514 > 512) still succeeds. -/
theorem push_no_size_check_witness :
    (tl_packet_push_hop oversizedPacket 1).1 = 0 :=
  (push_no_size_check oversizedPacket 1).2 (by decide) (by decide) (by decide)

/-- Claim C8 (counterexample): parsing "/3/1/" yields [3, 1] written
left-to-right into the trailer, but with those bytes installed as the
routing trailer, `tl_packet_pop_hop` returns 1 (the rightmost segment), not
3 (the leftmost segment), so the leftmost segment is NOT the first hop
popped. -/
theorem parse_leftmost_not_first_popped :
    tl_parse_routing "/3/1/" = some [3, 1] ∧
    (tl_packet_pop_hop (installRouting 0 [3, 1])).1 ≠ (3 : Int) ∧
    (tl_packet_pop_hop (installRouting 0 [3, 1])).1 = (1 : Int) := by
  decide

/-- Claim C8 (amended): `tl_parse_routing` writes the hops into the routing
buffer in left-to-right string order (leftmost segment = first byte of the
trailer), but when the parsed bytes are installed as a packet's routing
trailer, the first hop `tl_packet_pop_hop` returns is the LAST byte of the
trailer, i.e. the rightmost segment of the path string. -/
theorem pop_returns_rightmost (hops : List Nat) (payloadSize : Nat)
    (hne : hops ≠ []) :
    tl_parse_routing "/3/1/" = some [3, 1] ∧
    (tl_packet_pop_hop (installRouting payloadSize hops)).1 =
      (hops.getLast hne : Int) := by
  refine ⟨by decide, ?_⟩
  unfold tl_packet_pop_hop installRouting
  have hlen : hops.length ≠ 0 := fun h => hne (List.length_eq_zero.mp h)
  rw [if_neg hlen]
  simp only [tl_packet_routing_data]
  rw [if_pos (by omega)]
  rw [Nat.add_sub_cancel_left, getD_last hops hne]

/-- Witness for C8 (amended) at the parsed hops [3, 1]: the first pop
returns 1, the last (rightmost) segment. -/
theorem pop_returns_rightmost_witness :
    tl_parse_routing "/3/1/" = some [3, 1] ∧
    (tl_packet_pop_hop (installRouting 0 [3, 1])).1 =
      (([3, 1] : List Nat).getLast (List.cons_ne_nil 3 [1]) : Int) :=
  pop_returns_rightmost [3, 1] 0 (List.cons_ne_nil 3 [1])

/-- Claim C9: the parse vectors of the spec: "/3/1/" and "3/1" both parse to
[3, 1]; an empty segment ("/3//1/"), an out-of-byte-range value ("/256/")
and more than 8 hops ("/1/2/3/4/5/6/7/8/9/") all fail; failure yields no
partial result (the parse returns an `Option`: on failure there is no
output at all, so the parse is atomic by construction). -/
theorem parse_routing_vectors :
    tl_parse_routing "/3/1/" = some [3, 1] ∧
    tl_parse_routing "3/1" = some [3, 1] ∧
    tl_parse_routing "/3//1/" = none ∧
    tl_parse_routing "/256/" = none ∧
    tl_parse_routing "/1/2/3/4/5/6/7/8/9/" = none := by
  decide
